import Mathlib

/-!
Shallow embedding of the BankBot lead server (src/server.js).

The repository's single source file concatenates three variants of the
Express server.  The definitions below translate the route handlers and
helper functions that the verified claims are about.  Strings that travel
through the token codec are modelled as lists of characters, which matches
JavaScript's per-character string operations (split, substring, indexOf).
Asynchronous calls that can throw (Twilio, SendGrid, Supabase) are modelled
as explicit Except-valued parameters: a handler receives the outcome each
call would produce, and the embedding threads them through the handler's
control flow exactly as the try/catch structure of the source does.
-/

namespace BankBot

/-! ## Token codec (generateIssueToken and the three decoders) -/

/-- generateIssueToken in server.js: the template string
concatenation of the lead id, a dash, and the 32-hex-character nonce
produced by crypto.randomBytes(16).toString("hex").  The nonce is a
parameter here, since it is random in the source. -/
def generateIssueToken (leadId nonce : List Char) : List Char :=
  leadId ++ '-' :: nonce

/-- JavaScript String.prototype.split with separator "-" (on a
single-character separator it splits at every occurrence, keeping empty
segments, and always returns at least one segment). -/
def splitDash : List Char → List (List Char)
  | [] => [[]]
  | c :: cs =>
    match splitDash cs with
    | [] => [[]]
    | p :: ps => if c = '-' then [] :: p :: ps else (c :: p) :: ps

/-- JavaScript Array.prototype.join("-"). -/
def joinDash : List (List Char) → List Char
  | [] => []
  | [p] => p
  | p :: ps => p ++ '-' :: joinDash ps

/-- Decoder of the first server variant (GET /mark-issued/:token and
POST /confirm-issued/:token): token.split("-") followed by
parts.slice(0, 5).join("-"). -/
def decodeSlice5 (t : List Char) : List Char :=
  joinDash ((splitDash t).take 5)

/-- Decoder of the third server variant (GET /mark-issued/:token):
token.split("-")[0]. -/
def decodeFirst (t : List Char) : List Char :=
  ((splitDash t).headD [])

/-- Index of the last '-' in the string, as in JavaScript
String.prototype.lastIndexOf("-"); none models the -1 result. -/
def lastDashIdx : List Char → Option Nat
  | [] => none
  | c :: cs =>
    match lastDashIdx cs with
    | some i => some (i + 1)
    | none => if c = '-' then some 0 else none

/-- Decoder of the second server variant (GET /mark-issued/:token and
POST /confirm-status/:token): token.substring(0, token.lastIndexOf("-")).
When lastIndexOf returns -1, substring(0, -1) is the empty string. -/
def decodeLastDash (t : List Char) : List Char :=
  match lastDashIdx t with
  | none => []
  | some i => t.take i

/-- A canonical 36-character UUID lead identifier, used as concrete input. -/
def sampleId : List Char := "123e4567-e89b-12d3-a456-426614174000".data

/-- A concrete 32-hex-character nonce of the shape produced by
crypto.randomBytes(16).toString("hex"). -/
def sampleNonce : List Char := "00112233445566778899aabbccddeeff".data

/-- C1.  Token codec round-trip.  The claim states that decoding the token
produced by generateIssueToken recovers exactly the lead id for every
canonical 36-character UUID identifier, including identifiers containing
the delimiter '-'.  The split("-")[0] decoder of the third server variant
violates this: on the token built from a canonical UUID it returns only
the first dash-free segment of the identifier.  This theorem evaluates the
code at the failing input: the slice-5 and lastIndexOf decoders recover
the id, while split("-")[0] returns the 8-character prefix, so the route
using it queries the store with a truncated identifier. -/
theorem tokenRoundTrip_code_bug :
    sampleId.length = 36 ∧
    decodeSlice5 (generateIssueToken sampleId sampleNonce) = sampleId ∧
    decodeLastDash (generateIssueToken sampleId sampleNonce) = sampleId ∧
    decodeFirst (generateIssueToken sampleId sampleNonce) = "123e4567".data ∧
    "123e4567".data ≠ sampleId := by
  refine ⟨by decide, by decide, by decide, by decide, by decide⟩

/-! ## JavaScript truthiness and defaulting helpers -/

/-- JavaScript truthiness of a possibly absent string: undefined/null and
the empty string are falsy, every other string is truthy. -/
def jsTruthyS : Option String → Bool
  | none => false
  | some s => !(s = "")

/-- The JavaScript expression (o || d) on a possibly absent string: the
default is taken when the value is absent or the empty string. -/
def jsOrDefault (o : Option String) (d : String) : String :=
  match o with
  | none => d
  | some s => if s = "" then d else s

/-- Outcome of one awaited call that can throw (Twilio message create,
SendGrid send, Supabase query/update): ok, or a thrown error message. -/
abbrev CallOutcome := Except String Unit

/-! ## POST /assign-lead (second server variant, the claimed source)

The handler validates the body, looks the agent up, awaits the SMS send,
awaits the email send, and only then runs the status/assigned_agent/
assigned_time update — all inside one try block whose catch answers 500.
The embedding records which of the three awaited effects were reached. -/

structure Agent where
  name : String
  email : String
  phone : String
deriving Repr, DecidableEq

/-- Result of one /assign-lead invocation: the HTTP status, the success
flag of the JSON body, and which awaited effects the handler reached. -/
structure AssignLeadResult where
  httpStatus : Nat
  success : Bool
  smsAttempted : Bool
  emailAttempted : Bool
  updateAttempted : Bool
deriving Repr, DecidableEq

/-- POST /assign-lead.  leadId is the id of the lead in the request body
(present iff the lead object is present), agentId the body's agentId.
agentRes models the Supabase agents .single() lookup: a thrown error or a
null row both take the "Agent not found" throw.  smsRes, emailRes and
updRes are the outcomes the Twilio send, the SendGrid send and the
loan_applications update would produce if reached. -/
def assignLead (lead : Option Unit) (agentId : Option String)
    (agentRes : Except String (Option Agent))
    (smsRes emailRes updRes : CallOutcome) : AssignLeadResult :=
  if lead.isNone || !(jsTruthyS agentId) then
    ⟨400, false, false, false, false⟩
  else
    match agentRes with
    | .error _ => ⟨500, false, false, false, false⟩
    | .ok none => ⟨500, false, false, false, false⟩
    | .ok (some _) =>
      match smsRes with
      | .error _ => ⟨500, false, true, false, false⟩
      | .ok _ =>
        match emailRes with
        | .error _ => ⟨500, false, true, true, false⟩
        | .ok _ =>
          match updRes with
          | .error _ => ⟨500, false, true, true, true⟩
          | .ok _ => ⟨200, true, true, true, true⟩

/-- C2 counterexample.  With a valid body, a found agent, and both
notification channels failing, the handler returns 500 and the
status/timestamp update is never attempted: notification failure does
prevent the state transition from being persisted. -/
theorem assignLead_notifyFailure_blocks_persistJson :
    assignLead (some ()) (some "agent-1")
      (.ok (some ⟨"Jo", "jo@x.com", "+441111111111"⟩))
      (.error "twilio down") (.error "sendgrid down") (.ok ())
      = ⟨500, false, true, false, false⟩ := by
  decide

/-- C2 amended.  In POST /assign-lead the update of
status/assigned_agent/assigned_time is attempted exactly when the request
body is valid, the agent lookup succeeds, and both the SMS and the email
send succeed; any notification failure aborts the handler with 500 before
persistence. -/
theorem assignLead_update_iff_sends_ok (lead : Option Unit)
    (agentId : Option String) (agentRes : Except String (Option Agent))
    (smsRes emailRes updRes : CallOutcome) :
    (assignLead lead agentId agentRes smsRes emailRes updRes).updateAttempted
      = true ↔
    (lead.isSome ∧ jsTruthyS agentId = true ∧
      (∃ a, agentRes = .ok (some a)) ∧ smsRes = .ok () ∧ emailRes = .ok ()) := by
  rcases lead with _ | u
  · simp [assignLead]
  · rcases agentRes with e | oa
    · cases hA : jsTruthyS agentId <;> simp [assignLead, hA]
    · rcases oa with _ | a
      · cases hA : jsTruthyS agentId <;> simp [assignLead, hA]
      · rcases smsRes with e1 | ⟨⟩
        · cases hA : jsTruthyS agentId <;> simp [assignLead, hA]
        · rcases emailRes with e2 | ⟨⟩
          · cases hA : jsTruthyS agentId <;> simp [assignLead, hA]
          · rcases updRes with e3 | ⟨⟩ <;>
              cases hA : jsTruthyS agentId <;> simp [assignLead, hA]

/-! ## Recipient notification loops (POST /lead-created, POST /assign-branch)

Both handlers iterate over the fetched users with
for (const u of users) { if (u.phone) await twilio...; if (u.email) await
sgMail...; } inside one try block: every send is awaited sequentially and
a rejection jumps to the catch.  The loop is modelled with the outcome of
each user's SMS and email send supplied alongside the user; it returns the
list of (user index, channel) attempts actually made, in order, and the
overall outcome. -/

structure Contact where
  phone : Option String
  email : Option String
deriving Repr, DecidableEq

/-- The notification for-loop, starting at user index i. -/
def notifyAux (i : Nat) :
    List (Contact × CallOutcome × CallOutcome) →
      List (Nat × String) × CallOutcome
  | [] => ([], .ok ())
  | (c, smsRes, emailRes) :: rest =>
    if jsTruthyS c.phone then
      match smsRes with
      | .error e => ([(i, "sms")], .error e)
      | .ok _ =>
        if jsTruthyS c.email then
          match emailRes with
          | .error e => ([(i, "sms"), (i, "email")], .error e)
          | .ok _ =>
            let r := notifyAux (i + 1) rest
            ((i, "sms") :: (i, "email") :: r.1, r.2)
        else
          let r := notifyAux (i + 1) rest
          ((i, "sms") :: r.1, r.2)
    else if jsTruthyS c.email then
      match emailRes with
      | .error e => ([(i, "email")], .error e)
      | .ok _ =>
        let r := notifyAux (i + 1) rest
        ((i, "email") :: r.1, r.2)
    else notifyAux (i + 1) rest

/-- The admin/manager notification loop of POST /lead-created and
POST /assign-branch. -/
def notifyUsers (l : List (Contact × CallOutcome × CallOutcome)) :
    List (Nat × String) × CallOutcome :=
  notifyAux 0 l

/-! ## POST /send-template

Fetches the (company, type) templates, loops over them sending the SMS
ones to the lead's phone and the email ones to the lead's email — again
all awaited inside one try — and then updates the lead's status to the
chosen type.  The update's own result object is discarded by the source
(no error check on the final update), so the handler answers success
whenever the loop completes. -/

structure Tmpl where
  channel : String
  subject : Option String
  body : String
deriving Repr, DecidableEq

structure TLead where
  phone_number : Option String
  email : Option String
deriving Repr, DecidableEq

/-- The template for-loop: each template is paired with the outcome its
send would produce.  A template attempts a send only when its channel
matches and the corresponding lead contact field is truthy (the source
uses two separate if statements, which are mutually exclusive because a
template has a single channel value). -/
def runTemplatesAux (phone email : Bool) (i : Nat) :
    List (Tmpl × CallOutcome) → List (Nat × String) × CallOutcome
  | [] => ([], .ok ())
  | (t, sendRes) :: rest =>
    if t.channel = "sms" && phone then
      match sendRes with
      | .error e => ([(i, "sms")], .error e)
      | .ok _ =>
        let r := runTemplatesAux phone email (i + 1) rest
        ((i, "sms") :: r.1, r.2)
    else if t.channel = "email" && email then
      match sendRes with
      | .error e => ([(i, "email")], .error e)
      | .ok _ =>
        let r := runTemplatesAux phone email (i + 1) rest
        ((i, "email") :: r.1, r.2)
    else runTemplatesAux phone email (i + 1) rest

structure SendTemplateResult where
  httpStatus : Nat
  success : Bool
  attempts : List (Nat × String)
  updateAttempted : Bool
deriving Repr, DecidableEq

/-- POST /send-template.  fetchRes models the message_templates query: a
thrown error, or the rows each paired with the outcome its send would
produce; an empty row set takes the "No templates found" throw. -/
def sendTemplate (lead : Option TLead) (ty company : Option String)
    (fetchRes : Except String (List (Tmpl × CallOutcome))) :
    SendTemplateResult :=
  match lead with
  | none => ⟨400, false, [], false⟩
  | some L =>
    if !(jsTruthyS ty) || !(jsTruthyS company) then ⟨400, false, [], false⟩
    else
      match fetchRes with
      | .error _ => ⟨500, false, [], false⟩
      | .ok ts =>
        if ts.isEmpty then ⟨500, false, [], false⟩
        else
          let r := runTemplatesAux (jsTruthyS L.phone_number)
            (jsTruthyS L.email) 0 ts
          match r.2 with
          | .error _ => ⟨500, false, r.1, false⟩
          | .ok _ => ⟨200, true, r.1, true⟩

/-- C3 counterexample.  Two opted-in admins, both with phone and email;
the first admin's SMS send fails.  The loop stops at that first attempt:
the first admin's email and all of the second admin's channels are never
attempted, and the handler takes the catch branch.  Likewise in
POST /send-template a failing SMS template send prevents the email
template and the status update, and the handler answers 500. -/
theorem notifyLoop_not_isolated :
    notifyUsers
      [(⟨some "+441111111111", some "a1@x.com"⟩, .error "twilio down", .ok ()),
       (⟨some "+442222222222", some "a2@x.com"⟩, .ok (), .ok ())]
      = ([(0, "sms")], .error "twilio down") ∧
    sendTemplate (some ⟨some "+443333333333", some "c@x.com"⟩)
      (some "Issued") (some "Acme")
      (.ok [(⟨"sms", none, "hello"⟩, .error "twilio down"),
            (⟨"email", some "s", "hello"⟩, .ok ())])
      = ⟨500, false, [(0, "sms")], false⟩ := by
  exact ⟨rfl, rfl⟩

/-- C3 amended.  The per-(recipient, channel) attempts are not isolated:
sends run strictly in order and the first failure aborts the whole loop.
Whenever the first recipient has a truthy phone and their SMS send fails,
nothing else is attempted and the loop reports that error; and in
POST /send-template (valid request, templates found) the status update is
attempted exactly when the template loop completes without a failure. -/
theorem notifyLoop_abortsOnFirstFailure (c : Contact)
    (emailRes : CallOutcome) (rest : List (Contact × CallOutcome × CallOutcome))
    (e : String) (hp : jsTruthyS c.phone = true)
    (L : TLead) (ty company : Option String) (ts : List (Tmpl × CallOutcome))
    (hty : jsTruthyS ty = true) (hco : jsTruthyS company = true)
    (hts : ts ≠ []) :
    notifyUsers ((c, .error e, emailRes) :: rest) = ([(0, "sms")], .error e) ∧
    ((sendTemplate (some L) ty company (.ok ts)).updateAttempted = true ↔
      (runTemplatesAux (jsTruthyS L.phone_number) (jsTruthyS L.email) 0 ts).2
        = .ok ()) := by
  constructor
  · simp [notifyUsers, notifyAux, hp]
  · rcases ts with _ | ⟨t0, ts'⟩
    · exact absurd rfl hts
    · simp only [sendTemplate, hty, hco]
      rcases h : (runTemplatesAux (jsTruthyS L.phone_number)
          (jsTruthyS L.email) 0 (t0 :: ts')).2 with e' | u
      · simp [h]
      · simp [h]

/-- Witness for the C3 amended theorem at concrete inputs. -/
theorem notifyLoop_abortsOnFirstFailure_witness :
    notifyUsers [(⟨some "+441111111111", some "a1@x.com"⟩,
        .error "twilio down", .ok ())]
      = ([(0, "sms")], .error "twilio down") ∧
    ((sendTemplate (some ⟨some "+443333333333", some "c@x.com"⟩)
        (some "Issued") (some "Acme")
        (.ok [(⟨"email", some "s", "hi"⟩, .ok ())])).updateAttempted = true ↔
      (runTemplatesAux (jsTruthyS (some "+443333333333"))
          (jsTruthyS (some "c@x.com")) 0
          [(⟨"email", some "s", "hi"⟩, .ok ())]).2 = .ok ()) := by
  have h := notifyLoop_abortsOnFirstFailure
    ⟨some "+441111111111", some "a1@x.com"⟩ (.ok ()) [] "twilio down"
    (by decide) ⟨some "+443333333333", some "c@x.com"⟩
    (some "Issued") (some "Acme") [(⟨"email", some "s", "hi"⟩, .ok ())]
    (by decide) (by decide) (by simp)
  exact ⟨h.1, h.2⟩

/-! ## Token-handling front of GET /mark-issued/:token and
POST /confirm-status/:token

Both handlers derive leadId from the token, answer 400 "Invalid token"
when leadId is falsy (the empty string), and otherwise run the Supabase
lookup keyed by leadId.  The decision below captures exactly that fork:
reject without touching the store, or issue a store query with the
decoded identifier. -/

inductive TokenDecision where
  | reject
  | query (leadId : List Char)
deriving Repr, DecidableEq

/-- The token check of GET /mark-issued/:token (first variant): leadId is
parts.slice(0, 5).join("-"); the store is queried unless it is empty. -/
def markIssuedPageDecision (t : List Char) : TokenDecision :=
  let leadId := decodeSlice5 t
  if leadId = [] then .reject else .query leadId

/-- The token check of POST /confirm-status/:token (second variant):
leadId is token.substring(0, token.lastIndexOf("-")); the store is
queried unless it is empty. -/
def confirmStatusDecision (t : List Char) : TokenDecision :=
  let leadId := decodeLastDash t
  if leadId = [] then .reject else .query leadId

theorem splitDash_ne_nil (l : List Char) : splitDash l ≠ [] := by
  cases l with
  | nil => simp [splitDash]
  | cons c cs =>
    simp only [splitDash]
    rcases splitDash cs with _ | ⟨p, ps⟩
    · simp
    · by_cases hc : c = '-' <;> simp [hc]

theorem joinDash_cons (p : List Char) (ps : List (List Char)) :
    joinDash (p :: ps) = if ps = [] then p else p ++ '-' :: joinDash ps := by
  cases ps with
  | nil => rfl
  | cons q qs => rfl

/-- The slice-5 decoder returns a non-empty string on every non-empty
token, so no token reaching the route is ever rejected. -/
theorem decodeSlice5_ne_nil (t : List Char) (ht : t ≠ []) :
    decodeSlice5 t ≠ [] := by
  cases t with
  | nil => exact absurd rfl ht
  | cons c cs =>
    unfold decodeSlice5
    simp only [splitDash]
    rcases h : splitDash cs with _ | ⟨p, ps⟩
    · exact absurd h (splitDash_ne_nil cs)
    · by_cases hc : c = '-'
      · simp only [hc, if_pos rfl, List.take]
        rw [joinDash_cons]
        simp
      · simp only [if_neg hc, List.take]
        rw [joinDash_cons]
        by_cases hps : ps.take 4 = [] <;> simp [hps]

theorem lastDashIdx_eq_none_iff (l : List Char) :
    lastDashIdx l = none ↔ '-' ∉ l := by
  induction l with
  | nil => simp [lastDashIdx]
  | cons c cs ih =>
    simp only [lastDashIdx]
    rcases h : lastDashIdx cs with _ | i
    · have hcs : '-' ∉ cs := ih.mp h
      by_cases hc : c = '-'
      · simp [hc]
      · simp [hc, hcs, Ne.symm hc]
    · have hmem : '-' ∈ cs := by
        by_contra hn
        rw [ih.mpr hn] at h
        cases h
      simp [hmem]

/-- C4 counterexample.  A 3-character token is far shorter than the
36-character identifier format, yet neither handler rejects it: the
slice-5 route queries the store with id "abc", and the lastIndexOf route,
given the 3-character token "a-b", queries the store with id "a".
Decoding does not fail and the malformed identifier does reach the store
layer. -/
theorem shortToken_reachesStore :
    markIssuedPageDecision "abc".data = .query "abc".data ∧
    "abc".data.length < 36 ∧
    confirmStatusDecision "a-b".data = .query "a".data ∧
    "a-b".data.length < 36 := by
  exact ⟨by decide, by decide, by decide, by decide⟩

/-- C4 amended.  No minimum-length check exists.  The slice-5 handler
(GET /mark-issued/:token, first variant) queries the store with the
decoded prefix for every non-empty token, of any length; the lastIndexOf
handler (POST /confirm-status/:token) rejects exactly the tokens whose
decoded prefix is empty — those with no '-' beyond position zero — and
queries the store with the decoded prefix for every other token, of any
length. -/
theorem tokenDecision_no_length_check (t : List Char) (ht : t ≠ []) :
    (markIssuedPageDecision t = .query (decodeSlice5 t) ∧
      decodeSlice5 t ≠ []) ∧
    (∀ u : List Char,
      confirmStatusDecision u = .reject ↔ '-' ∉ u.drop 1) := by
  refine ⟨⟨?_, decodeSlice5_ne_nil t ht⟩, ?_⟩
  · simp [markIssuedPageDecision, decodeSlice5_ne_nil t ht]
  · intro u
    cases u with
    | nil => simp [confirmStatusDecision, decodeLastDash, lastDashIdx]
    | cons c cs =>
      simp only [confirmStatusDecision, decodeLastDash, lastDashIdx,
        List.drop_succ_cons, List.drop_zero]
      rcases h : lastDashIdx cs with _ | i
      · have hcs : '-' ∉ cs := (lastDashIdx_eq_none_iff cs).mp h
        by_cases hc : c = '-' <;> simp [hc, hcs]
      · have hcs : ¬('-' ∉ cs) := fun hn => by
          rw [← lastDashIdx_eq_none_iff] at hn
          rw [hn] at h
          cases h
        simp [hcs]

/-- Witness for the C4 amended theorem at a concrete short token. -/
theorem tokenDecision_no_length_check_witness :
    (markIssuedPageDecision "abc".data = .query (decodeSlice5 "abc".data) ∧
      decodeSlice5 "abc".data ≠ []) ∧
    (∀ u : List Char,
      confirmStatusDecision u = .reject ↔ '-' ∉ u.drop 1) :=
  tokenDecision_no_length_check "abc".data (by decide)

/-! ## POST /vapi/callback -/

structure VapiEvent where
  metadata_lead_id : Option String
  call_id : Option String
  transcript_text : Option String
  eventStatus : Option String
  eventType : Option String
  customer_number : Option String
deriving Repr, DecidableEq

/-- Row inserted into voice_call_1 by the callback handler. -/
structure VoiceCallRow where
  lead_id : String
  vapi_call_id : Option String
  phone_number : Option String
  transcript : Option String
  callStatus : String
deriving Repr, DecidableEq

/-- The JavaScript expression (o || null): empty strings collapse to null. -/
def jsOrNull (o : Option String) : Option String :=
  match o with
  | none => none
  | some s => if s = "" then none else some s

/-- The row the handler builds: transcript is event.transcript?.text ||
null, status is event.status || event.type || "unknown". -/
def vapiInsertRow (l : String) (e : VapiEvent) : VoiceCallRow :=
  ⟨l, e.call_id, e.customer_number, jsOrNull e.transcript_text,
    jsOrDefault e.eventStatus (jsOrDefault e.eventType "unknown")⟩

/-- POST /vapi/callback.  When metadata.lead_id is falsy the handler
answers 200 without touching the store; otherwise it attempts the insert
inside a try whose catch only logs, and answers 200 afterwards in every
case.  The second component records the row of the attempted insert, or
none when no insert was attempted. -/
def vapiCallback (e : VapiEvent) (insertRes : CallOutcome) :
    Nat × Option VoiceCallRow :=
  match e.metadata_lead_id with
  | none => (200, none)
  | some l =>
    if l = "" then (200, none)
    else
      match insertRes with
      | .error _ => (200, some (vapiInsertRow l e))
      | .ok _ => (200, some (vapiInsertRow l e))

/-- C8.  The voice-call webhook answers HTTP 200 for every event payload
and every persistence outcome, and a failing insert produces exactly the
same response as a succeeding one — the failure is only logged. -/
theorem vapiCallback_always_200 (e : VapiEvent) (insertRes : CallOutcome)
    (m : String) :
    (vapiCallback e insertRes).1 = 200 ∧
    vapiCallback e (.error m) = vapiCallback e (.ok ()) := by
  unfold vapiCallback
  rcases e.metadata_lead_id with _ | l
  · exact ⟨rfl, rfl⟩
  · by_cases hl : l = ""
    · simp [hl]
    · rcases insertRes with e' | u <;> simp [hl]

/-! ## POST /assign-branch (second server variant, the claimed source) -/

structure BUser where
  role : String
  company_name : Option String
  branch : Option String
  lead_notifications : Bool
  phone : Option String
  email : Option String
deriving Repr, DecidableEq

/-- The lead row returned by the assigned_branch update's .select().
Only company_name is consumed by the manager query; the message fields
are pass-through payload. -/
structure BranchLead where
  company_name : Option String
deriving Repr, DecidableEq

/-- The users query of POST /assign-branch: company_name equal to the
updated lead's company, branch equal to the posted branchId, role
"manager", lead_notifications true.  A null lead company matches no row
(SQL equality with NULL). -/
def isBranchManager (company : Option String) (branchId : String)
    (u : BUser) : Bool :=
  (match company with
    | none => false
    | some cName => u.company_name == some cName) &&
  u.branch == some branchId && u.role == "manager" && u.lead_notifications

structure AssignBranchResult where
  httpStatus : Nat
  success : Bool
  message : String
  attempts : List (Nat × String)
deriving Repr, DecidableEq

/-- POST /assign-branch.  updRes models the assigned_branch update with
.select().single(): a thrown error, a null row (404), or the updated
lead.  outcomes supplies, positionally, the SMS and email outcomes for
each notified manager. -/
def assignBranch (leadId branchId : Option String)
    (updRes : Except String (Option BranchLead)) (users : List BUser)
    (outcomes : List (CallOutcome × CallOutcome)) : AssignBranchResult :=
  match leadId, branchId with
  | some l, some b =>
    if l = "" || b = "" then ⟨400, false, "Missing leadId or branchId", []⟩
    else
      match updRes with
      | .error e => ⟨500, false, e, []⟩
      | .ok none => ⟨404, false, "Lead not found after update", []⟩
      | .ok (some lead) =>
        let ms := users.filter (isBranchManager lead.company_name b)
        if ms.isEmpty then
          ⟨200, true,
            "Branch assigned successfully (no managers found for notification)",
            []⟩
        else
          let r := notifyUsers ((ms.zip outcomes).map
            (fun p => (⟨p.1.phone, p.1.email⟩, p.2.1, p.2.2)))
          match r.2 with
          | .error e => ⟨500, false, e, r.1⟩
          | .ok _ => ⟨200, true, "Branch assigned and managers notified", r.1⟩
  | _, _ => ⟨400, false, "Missing leadId or branchId", []⟩

/-- C9.  When the branch update succeeds and the opted-in branch-manager
query matches nobody, the handler answers overall success with the
explicit no-recipients message, not an error, and attempts no sends. -/
theorem assignBranch_noManagers_success (l b : String) (lead : BranchLead)
    (users : List BUser) (outcomes : List (CallOutcome × CallOutcome))
    (hl : l ≠ "") (hb : b ≠ "")
    (hms : users.filter (isBranchManager lead.company_name b) = []) :
    assignBranch (some l) (some b) (.ok (some lead)) users outcomes =
      ⟨200, true,
        "Branch assigned successfully (no managers found for notification)",
        []⟩ := by
  simp [assignBranch, hl, hb, hms]

/-- Witness for C9: an empty user table matches no managers. -/
theorem assignBranch_noManagers_success_witness :
    assignBranch (some "lead-7") (some "B1") (.ok (some ⟨some "Acme"⟩)) [] [] =
      ⟨200, true,
        "Branch assigned successfully (no managers found for notification)",
        []⟩ :=
  assignBranch_noManagers_success "lead-7" "B1" ⟨some "Acme"⟩ [] []
    (by decide) (by decide) rfl

/-! ## POST /confirm-status/:token -/

/-- The lead lifecycle states named by the specification. -/
def lifecycleStatuses : List String :=
  ["New", "In Progress", "Issued", "Agent Declined", "Unable to Contact",
   "No Longer Needed"]

structure ConfirmStatusResult where
  httpStatus : Nat
  updateStatusField : Option String
deriving Repr, DecidableEq

/-- POST /confirm-status/:token.  The status written to the store is
req.query.status || "Unknown"; the token is decoded with lastIndexOf.
fetchRes models the first_name/surname lookup, updRes the status update.
updateStatusField is the status value of the update payload, or none when
no update call was made. -/
def confirmStatus (token : List Char) (statusParam : Option String)
    (fetchRes : Except String (Option Unit)) (updRes : CallOutcome) :
    ConfirmStatusResult :=
  let leadId := decodeLastDash token
  let status := jsOrDefault statusParam "Unknown"
  if leadId = [] then ⟨400, none⟩
  else
    match fetchRes with
    | .error _ => ⟨500, none⟩
    | .ok none => ⟨500, none⟩
    | .ok (some _) =>
      match updRes with
      | .error _ => ⟨500, some status⟩
      | .ok _ => ⟨200, some status⟩

/-- C10 counterexample.  A caller who supplies the empty string as the
status query parameter does not get the empty string persisted: the ||
default replaces it with "Unknown", so the handler does not persist
every supplied string verbatim. -/
theorem confirmStatus_emptyParam_becomes_Unknown :
    confirmStatus "L-abc".data (some "") (.ok (some ())) (.ok ()) =
      ⟨200, some "Unknown"⟩ ∧ some "Unknown" ≠ some "" := by
  exact ⟨rfl, by decide⟩

/-- C10 amended.  POST /confirm-status/:token persists any non-empty
supplied status string verbatim, with no validation against the lifecycle
status enum; when the status parameter is absent — or supplied as the
empty string — it persists the literal "Unknown". -/
theorem confirmStatus_no_validation (t : List Char)
    (ht : decodeLastDash t ≠ []) (s : String) (hs : s ≠ "") :
    confirmStatus t (some s) (.ok (some ())) (.ok ()) = ⟨200, some s⟩ ∧
    confirmStatus t none (.ok (some ())) (.ok ()) = ⟨200, some "Unknown"⟩ := by
  constructor <;> simp [confirmStatus, jsOrDefault, hs, ht]

/-- Witness for the C10 amended theorem: the status "Banana", which is
not a lifecycle state, is persisted verbatim. -/
theorem confirmStatus_no_validation_witness :
    "Banana" ∉ lifecycleStatuses ∧
    confirmStatus "L-x".data (some "Banana") (.ok (some ())) (.ok ()) =
      ⟨200, some "Banana"⟩ :=
  ⟨by decide,
    (confirmStatus_no_validation "L-x".data (by decide) "Banana"
      (by decide)).1⟩

/-! ## GET /avg-tti (first server variant: in-core aggregation)

The route queries loan_applications with .eq("status", "Issued") plus
optional .eq filters on company_name and assigned_branch, then groups the
rows by assigned_agent in a plain object (insertion order), pushing
issued_time - assigned_time for every row whose agent and both timestamps
are truthy, and renders the arithmetic mean of each group.  Timestamps
are modelled as integer epoch milliseconds; the JavaScript float average
sum / length is modelled as the exact rational. -/

structure Row where
  rowStatus : String
  assigned_agent : Option String
  assigned_time : Option Int
  issued_time : Option Int
  company_name : Option String
  assigned_branch : Option String
deriving Repr, DecidableEq

/-- The Supabase query filter: status equals "Issued", plus the optional
exact .eq filters for company_name and branch_id taken from the request
query string (absent or empty parameters are falsy and add no filter). -/
def rowFilter (company branch : Option String) (r : Row) : Bool :=
  r.rowStatus == "Issued" &&
  (match company with
    | none => true
    | some v => r.company_name == some v) &&
  (match branch with
    | none => true
    | some v => r.assigned_branch == some v)

def queryIssued (rows : List Row) (company branch : Option String) :
    List Row :=
  rows.filter (rowFilter company branch)

/-- The per-row contribution of the forEach: when assigned_agent,
assigned_time and issued_time are all truthy, the pair of the agent key
and issued_time - assigned_time; otherwise nothing. -/
def rowDiff (r : Row) : Option (String × Int) :=
  match r.assigned_agent, r.assigned_time, r.issued_time with
  | some a, some t1, some t2 => if a = "" then none else some (a, t2 - t1)
  | _, _, _ => none

/-- Appending one duration to the object results[agent]: existing keys
keep their position, a new key is appended at the end, matching string
key insertion order of a JavaScript object. -/
def pushDiff (acc : List (String × List Int)) (a : String) (d : Int) :
    List (String × List Int) :=
  if acc.any (fun p => p.1 == a) then
    acc.map (fun p => if p.1 == a then (p.1, p.2 ++ [d]) else p)
  else acc ++ [(a, [d])]

def collectStep (acc : List (String × List Int)) (r : Row) :
    List (String × List Int) :=
  match rowDiff r with
  | none => acc
  | some (a, d) => pushDiff acc a d

/-- The data.forEach grouping loop. -/
def collectDiffs (rows : List Row) : List (String × List Int) :=
  rows.foldl collectStep []

def msPerDay : ℚ := 1000 * 60 * 60 * 24
def msPerHour : ℚ := 1000 * 60 * 60
def msPerMin : ℚ := 1000 * 60

/-- Truncation toward zero, as JavaScript's implicit quotient in the %
operator. -/
def jsTrunc (q : ℚ) : ℤ := if 0 ≤ q then ⌊q⌋ else ⌈q⌉

/-- The JavaScript remainder a % b (sign of the dividend). -/
def jsMod (a b : ℚ) : ℚ := a - b * (jsTrunc (a / b) : ℚ)

/-- Math.floor(avg / (1000 * 60 * 60 * 24)). -/
def ttiDays (avg : ℚ) : ℤ := ⌊avg / msPerDay⌋

/-- Math.floor((avg % (1000 * 60 * 60 * 24)) / (1000 * 60 * 60)). -/
def ttiHours (avg : ℚ) : ℤ := ⌊jsMod avg msPerDay / msPerHour⌋

/-- Math.floor((avg % (1000 * 60 * 60)) / (1000 * 60)). -/
def ttiMins (avg : ℚ) : ℤ := ⌊jsMod avg msPerHour / msPerMin⌋

/-- The rendered duration string of one group. -/
def fmtTti (avg : ℚ) : String :=
  toString (ttiDays avg) ++ "d " ++ toString (ttiHours avg) ++ "h " ++
    toString (ttiMins avg) ++ "m"

/-- times.reduce((a, b) => a + b, 0) / times.length, as an exact
rational. -/
def listAvg (l : List Int) : ℚ := (l.sum : ℚ) / (l.length : ℚ)

/-- GET /avg-tti of the first server variant: filter, group, average,
render. -/
def avgTti (rows : List Row) (company branch : Option String) :
    List (String × String) :=
  (collectDiffs (queryIssued rows company branch)).map
    (fun p => (p.1, fmtTti (listAvg p.2)))

/-- Three Issued leads for agent "A" with deltas of one, two and three
hours between assignment and issuance. -/
def ttiExampleRows : List Row :=
  [⟨"Issued", some "A", some 0, some 3600000, some "Acme", none⟩,
   ⟨"Issued", some "A", some 0, some 7200000, some "Acme", none⟩,
   ⟨"Issued", some "A", some 0, some 10800000, some "Acme", none⟩]

/-- C5.  The rendering decomposes every non-negative mean duration into
whole days, hours in 0..23 and minutes in 0..59, truncating the
sub-minute remainder: the decomposition never exceeds the mean and falls
short of it by less than one minute.  And on the spec's example — three
Issued leads for agent "A" with deltas of 1h, 2h and 3h — the computed
average is exactly 2h and the aggregate renders as "0d 2h 0m". -/
theorem avgTti_truncated_mean (q : ℚ) (hq : 0 ≤ q) :
    (0 ≤ ttiHours q ∧ ttiHours q < 24 ∧ 0 ≤ ttiMins q ∧ ttiMins q < 60 ∧
      (ttiDays q : ℚ) * msPerDay + (ttiHours q : ℚ) * msPerHour +
        (ttiMins q : ℚ) * msPerMin ≤ q ∧
      q < (ttiDays q : ℚ) * msPerDay + (ttiHours q : ℚ) * msPerHour +
        (ttiMins q : ℚ) * msPerMin + msPerMin) ∧
    listAvg [3600000, 7200000, 10800000] = 7200000 ∧
    avgTti ttiExampleRows none none = [("A", "0d 2h 0m")] := by
  have e1 : listAvg [3600000, 7200000, 10800000] = 7200000 := by
    norm_num [listAvg]
  have hfmt : fmtTti 7200000 = "0d 2h 0m" := by
    have hd : ttiDays 7200000 = 0 := by norm_num [ttiDays, msPerDay]
    have hmod : jsMod 7200000 msPerDay = 7200000 := by
      norm_num [jsMod, jsTrunc, msPerDay]
    have hh : ttiHours 7200000 = 2 := by
      rw [ttiHours, hmod]
      norm_num [msPerHour]
    have hmod2 : jsMod 7200000 msPerHour = 0 := by
      norm_num [jsMod, jsTrunc, msPerHour]
    have hm : ttiMins 7200000 = 0 := by
      rw [ttiMins, hmod2]
      norm_num [msPerMin]
    rw [fmtTti, hd, hh, hm]
    rfl
  have e2 : avgTti ttiExampleRows none none = [("A", "0d 2h 0m")] := by
    have estep : avgTti ttiExampleRows none none =
        [("A", fmtTti (listAvg [3600000, 7200000, 10800000]))] := rfl
    rw [estep, e1, hfmt]
  refine ⟨?_, e1, e2⟩
  have hqD : (0:ℚ) ≤ q / (1000 * 60 * 60 * 24) := by
    exact div_nonneg hq (by norm_num)
  have hqH : (0:ℚ) ≤ q / (1000 * 60 * 60) := by
    exact div_nonneg hq (by norm_num)
  simp only [ttiDays, ttiHours, ttiMins, jsMod, jsTrunc, msPerDay,
    msPerHour, msPerMin, if_pos hqD, if_pos hqH]
  set d := ⌊q / (1000 * 60 * 60 * 24)⌋ with hdDef
  set F := ⌊q / (1000 * 60 * 60)⌋ with hFDef
  have cD : (0:ℚ) < 1000 * 60 * 60 * 24 := by norm_num
  have cH : (0:ℚ) < 1000 * 60 * 60 := by norm_num
  have cM : (0:ℚ) < 1000 * 60 := by norm_num
  have hd1 : (d:ℚ) * (1000 * 60 * 60 * 24) ≤ q :=
    (le_div_iff₀ cD).mp (Int.floor_le _)
  have hd2 : q < ((d:ℚ) + 1) * (1000 * 60 * 60 * 24) := by
    have h2 := (div_lt_iff₀ cD).mp
      (Int.lt_floor_add_one (q / (1000 * 60 * 60 * 24)))
    rw [← hdDef] at h2
    exact h2
  have hF1 : (F:ℚ) * (1000 * 60 * 60) ≤ q :=
    (le_div_iff₀ cH).mp (Int.floor_le _)
  have hF2 : q < ((F:ℚ) + 1) * (1000 * 60 * 60) := by
    have h2 := (div_lt_iff₀ cH).mp
      (Int.lt_floor_add_one (q / (1000 * 60 * 60)))
    rw [← hFDef] at h2
    exact h2
  have hr1e : (q - 1000 * 60 * 60 * 24 * (d:ℚ)) / (1000 * 60 * 60)
      = q / (1000 * 60 * 60) - ((24 * d : ℤ) : ℚ) := by
    push_cast
    ring
  have hhval : ⌊(q - 1000 * 60 * 60 * 24 * (d:ℚ)) / (1000 * 60 * 60)⌋
      = F - 24 * d := by
    rw [hr1e, Int.floor_sub_int]
  have hmle : ((⌊(q - 1000 * 60 * 60 * (F:ℚ)) / (1000 * 60)⌋ : ℚ))
      ≤ (q - 1000 * 60 * 60 * (F:ℚ)) / (1000 * 60) := Int.floor_le _
  have hm1 : ((⌊(q - 1000 * 60 * 60 * (F:ℚ)) / (1000 * 60)⌋ : ℚ)) * (1000 * 60)
      ≤ q - 1000 * 60 * 60 * (F:ℚ) := (le_div_iff₀ cM).mp hmle
  have hm2 : q - 1000 * 60 * 60 * (F:ℚ)
      < ((⌊(q - 1000 * 60 * 60 * (F:ℚ)) / (1000 * 60)⌋ : ℚ) + 1) * (1000 * 60) := by
    have := Int.lt_floor_add_one ((q - 1000 * 60 * 60 * (F:ℚ)) / (1000 * 60))
    have h2 := (div_lt_iff₀ cM).mp this
    push_cast at h2 ⊢
    linarith
  have hmnn : 0 ≤ ⌊(q - 1000 * 60 * 60 * (F:ℚ)) / (1000 * 60)⌋ := by
    apply Int.floor_nonneg.mpr
    apply div_nonneg _ cM.le
    linarith
  have hmlt : ⌊(q - 1000 * 60 * 60 * (F:ℚ)) / (1000 * 60)⌋ < 60 := by
    apply Int.floor_lt.mpr
    rw [div_lt_iff₀ cM]
    push_cast
    linarith
  have hhnn : 0 ≤ ⌊(q - 1000 * 60 * 60 * 24 * (d:ℚ)) / (1000 * 60 * 60)⌋ := by
    apply Int.floor_nonneg.mpr
    apply div_nonneg _ cH.le
    linarith
  have hhlt : ⌊(q - 1000 * 60 * 60 * 24 * (d:ℚ)) / (1000 * 60 * 60)⌋ < 24 := by
    apply Int.floor_lt.mpr
    rw [div_lt_iff₀ cH]
    push_cast
    linarith
  refine ⟨hhnn, hhlt, hmnn, hmlt, ?_, ?_⟩
  · rw [hhval]
    push_cast
    linarith
  · rw [hhval]
    push_cast
    linarith

/-- Witness for C5: the example aggregate, obtained from the theorem at
the concrete mean 7200000 ms. -/
theorem avgTti_truncated_mean_witness :
    listAvg [3600000, 7200000, 10800000] = 7200000 ∧
    avgTti ttiExampleRows none none = [("A", "0d 2h 0m")] :=
  (avgTti_truncated_mean 7200000 (by norm_num)).2

theorem mem_keys_pushDiff (acc : List (String × List Int)) (a b : String)
    (d : Int) :
    b ∈ (pushDiff acc a d).map Prod.fst ↔ b ∈ acc.map Prod.fst ∨ b = a := by
  unfold pushDiff
  by_cases hmem : acc.any (fun p => p.1 == a) = true
  · rw [if_pos hmem]
    have hkeys : (acc.map (fun p => if p.1 == a then (p.1, p.2 ++ [d]) else p)).map
        Prod.fst = acc.map Prod.fst := by
      rw [List.map_map]
      apply List.map_congr_left
      intro p _
      by_cases hp : p.1 = a <;> simp [hp]
    rw [hkeys]
    have ha : a ∈ acc.map Prod.fst := by
      rcases List.any_eq_true.mp hmem with ⟨p, hp, hpa⟩
      exact List.mem_map.mpr ⟨p, hp, by simpa using hpa⟩
    constructor
    · exact Or.inl
    · rintro (h | rfl)
      · exact h
      · exact ha
  · rw [if_neg hmem]
    simp

theorem mem_keys_foldl (rows : List Row) (acc : List (String × List Int))
    (b : String) :
    b ∈ ((rows.foldl collectStep acc).map Prod.fst) ↔
      b ∈ acc.map Prod.fst ∨ ∃ r ∈ rows, ∃ d, rowDiff r = some (b, d) := by
  induction rows generalizing acc with
  | nil => simp
  | cons r rs ih =>
    rw [List.foldl_cons, ih]
    rcases h : rowDiff r with _ | ⟨a, d0⟩
    · simp only [collectStep, h, List.mem_cons]
      constructor
      · rintro (hk | ⟨r', hr', hd⟩)
        · exact Or.inl hk
        · exact Or.inr ⟨r', Or.inr hr', hd⟩
      · rintro (hk | ⟨r', hr' | hr', hd⟩)
        · exact Or.inl hk
        · rw [hr', h] at hd
          rcases hd with ⟨d, hd⟩
          cases hd
        · exact Or.inr ⟨r', hr', hd⟩
    · simp only [collectStep, h, mem_keys_pushDiff, List.mem_cons]
      constructor
      · rintro ((hk | rfl) | ⟨r', hr', hd⟩)
        · exact Or.inl hk
        · exact Or.inr ⟨r, Or.inl rfl, d0, h⟩
        · exact Or.inr ⟨r', Or.inr hr', hd⟩
      · rintro (hk | ⟨r', hr' | hr', hd⟩)
        · exact Or.inl (Or.inl hk)
        · rw [hr', h] at hd
          rcases hd with ⟨d, hd⟩
          rw [Option.some_inj, Prod.mk.injEq] at hd
          exact Or.inl (Or.inr hd.1.symm)
        · exact Or.inr ⟨r', hr', hd⟩

theorem rowDiff_eq_some_iff (r : Row) (a : String) :
    (∃ d, rowDiff r = some (a, d)) ↔
      (r.assigned_agent = some a ∧ a ≠ "" ∧ r.assigned_time ≠ none ∧
        r.issued_time ≠ none) := by
  rcases r with ⟨st, ag, t1, t2, co, br⟩
  rcases ag with _ | a'
  · simp [rowDiff]
  · rcases t1 with _ | v1
    · simp [rowDiff]
    · rcases t2 with _ | v2
      · simp [rowDiff]
      · by_cases ha' : a' = ""
        · subst ha'
          constructor
          · rintro ⟨d, hd⟩
            simp [rowDiff] at hd
          · rintro ⟨hag, hne, _, _⟩
            rw [Option.some_inj] at hag
            exact absurd hag.symm hne
        · constructor
          · rintro ⟨d, hd⟩
            simp only [rowDiff, if_neg ha', Option.some_inj,
              Prod.mk.injEq] at hd
            rcases hd with ⟨rfl, _⟩
            exact ⟨rfl, ha', by simp, by simp⟩
          · rintro ⟨hag, hne, _, _⟩
            rw [Option.some_inj] at hag
            subst hag
            exact ⟨v2 - v1, by simp [rowDiff, ha']⟩

/-- C6.  An agent appears in the /avg-tti output exactly when some row
qualifies: status "Issued" (query filter), that agent assigned and truthy,
and both timestamps non-null.  Hence a lead whose status is not Issued
contributes nothing even with both timestamps set, a lead with a null
issued_time contributes nothing even when Issued, and an agent with zero
qualifying leads is absent from the output rather than reported as a zero
average. -/
theorem avgTti_membership (rows : List Row) (a : String) :
    a ∈ (avgTti rows none none).map Prod.fst ↔
      ∃ r ∈ rows, r.rowStatus = "Issued" ∧ r.assigned_agent = some a ∧
        a ≠ "" ∧ r.assigned_time ≠ none ∧ r.issued_time ≠ none := by
  have hkeys : (avgTti rows none none).map Prod.fst =
      (collectDiffs (queryIssued rows none none)).map Prod.fst := by
    unfold avgTti
    rw [List.map_map]
    rfl
  rw [hkeys]
  unfold collectDiffs
  rw [mem_keys_foldl]
  simp only [List.map_nil, List.mem_nil_iff, false_or]
  constructor
  · rintro ⟨r, hr, hd⟩
    rcases List.mem_filter.mp hr with ⟨hrows, hflt⟩
    have hst : r.rowStatus = "Issued" := by
      have := hflt
      unfold rowFilter at this
      simp only [Bool.and_true, Bool.and_eq_true, beq_iff_eq] at this
      exact this
    have := (rowDiff_eq_some_iff r a).mp hd
    exact ⟨r, hrows, hst, this.1, this.2.1, this.2.2.1, this.2.2.2⟩
  · rintro ⟨r, hrows, hst, hag, hane, ht1, ht2⟩
    refine ⟨r, List.mem_filter.mpr ⟨hrows, ?_⟩,
      (rowDiff_eq_some_iff r a).mpr ⟨hag, hane, ht1, ht2⟩⟩
    unfold rowFilter
    simp [hst]

/-! ## GET /avg-tti (second server variant: RPC rows filtered in core)

This variant fetches precomputed per-agent rows from the get_avg_tti RPC
and filters them in JavaScript: the company comparison trims and
lower-cases both sides (and requires a truthy row value), the branch
comparison is exact toString equality (again requiring a truthy row
value).  The first variant instead applies exact Supabase .eq filters in
the query, with no trimming or case folding. -/

structure RpcRow where
  assigned_agent : Option String
  company_name : Option String
  assigned_branch : Option String
  avg_tti_interval : Option String
deriving Repr, DecidableEq

/-- ASCII whitespace removed by String.prototype.trim (the inputs the
route compares are plain ASCII names). -/
def isJsSpace (c : Char) : Bool := c = ' ' || c = '\t' || c = '\n' || c = '\r'

/-- Leading and trailing whitespace removal on the character list. -/
def trimChars (l : List Char) : List Char :=
  ((l.dropWhile isJsSpace).reverse.dropWhile isJsSpace).reverse

/-- row.company_name.trim().toLowerCase() and its counterpart on the
query parameter, modelled on the string's character list. -/
def trimLower (s : String) : String :=
  String.mk ((trimChars s.data).map Char.toLower)

/-- The companyMatch predicate: no filter when the parameter is absent,
otherwise a truthy row company whose trimmed lower-cased form equals the
parameter's. -/
def rpcCompanyMatch (company : Option String) (r : RpcRow) : Bool :=
  match company with
  | none => true
  | some c =>
    match r.company_name with
    | none => false
    | some rc => if rc = "" then false else trimLower rc == trimLower c

/-- The branchMatch predicate: no filter when the parameter is absent,
otherwise a truthy row branch exactly equal (toString comparison) to the
parameter. -/
def rpcBranchMatch (branch : Option String) (r : RpcRow) : Bool :=
  match branch with
  | none => true
  | some b =>
    match r.assigned_branch with
    | none => false
    | some rb => if rb = "" then false else rb == b

/-- The filter step of the RPC /avg-tti variant. -/
def filterRpc (rows : List RpcRow) (company branch : Option String) :
    List RpcRow :=
  rows.filter (fun r => rpcCompanyMatch company r && rpcBranchMatch branch r)

/-- C7 counterexample.  In the .eq variant of /avg-tti (first server
variant) the company filter is an exact string comparison: the query
parameter " Acme " selects no row whose company is "acme", while "acme"
does — the two parameters do not select the same rows, contradicting
case- and whitespace-insensitivity for that route. -/
theorem avgTti_eqFilter_caseSensitive :
    avgTti [⟨"Issued", some "A", some 0, some 3600000, some "acme", none⟩]
        (some "acme") none = [("A", "0d 1h 0m")] ∧
    avgTti [⟨"Issued", some "A", some 0, some 3600000, some "acme", none⟩]
        (some " Acme ") none = [] := by
  constructor
  · have estep :
        avgTti [⟨"Issued", some "A", some 0, some 3600000, some "acme", none⟩]
          (some "acme") none = [("A", fmtTti (listAvg [3600000]))] := rfl
    rw [estep]
    have e1 : listAvg [3600000] = 3600000 := by norm_num [listAvg]
    have hfmt : fmtTti 3600000 = "0d 1h 0m" := by
      have hd : ttiDays 3600000 = 0 := by norm_num [ttiDays, msPerDay]
      have hmod : jsMod 3600000 msPerDay = 3600000 := by
        norm_num [jsMod, jsTrunc, msPerDay]
      have hh : ttiHours 3600000 = 1 := by
        rw [ttiHours, hmod]
        norm_num [msPerHour]
      have hmod2 : jsMod 3600000 msPerHour = 0 := by
        norm_num [jsMod, jsTrunc, msPerHour]
      have hm : ttiMins 3600000 = 0 := by
        rw [ttiMins, hmod2]
        norm_num [msPerMin]
      rw [fmtTti, hd, hh, hm]
      rfl
    rw [e1, hfmt]
  · rfl

/-- C7 amended.  The trimmed, case-insensitive company comparison belongs
to the RPC variant of /avg-tti: there, two company parameters with equal
trimmed lower-cased forms (such as " Acme " and "acme") select exactly
the same rows, and the branch filter keeps exactly the rows whose truthy
assigned_branch is string-equal to the parameter.  In the .eq variant the
company filter is exact, as the counterexample shows. -/
theorem filterRpc_trim_insensitive (rows : List RpcRow)
    (c c' : String) (hcc : trimLower c = trimLower c')
    (b : String) (r : RpcRow) :
    (∀ branch, filterRpc rows (some c) branch
        = filterRpc rows (some c') branch) ∧
    (r ∈ filterRpc rows none (some b) ↔
      r ∈ rows ∧ ∃ rb, r.assigned_branch = some rb ∧ rb ≠ "" ∧ rb = b) := by
  constructor
  · intro branch
    unfold filterRpc
    apply List.filter_congr
    intro x _
    have : rpcCompanyMatch (some c) x = rpcCompanyMatch (some c') x := by
      unfold rpcCompanyMatch
      rcases x.company_name with _ | rc
      · rfl
      · by_cases hrc : rc = ""
        · simp [hrc]
        · simp [hrc, hcc]
    rw [this]
  · unfold filterRpc
    rw [List.mem_filter]
    simp only [rpcCompanyMatch, rpcBranchMatch, Bool.true_and]
    rcases hbr : r.assigned_branch with _ | rb
    · simp
    · by_cases hrb : rb = ""
      · simp [hrb]
      · simp [hrb, beq_iff_eq]

/-- Witness for the C7 amended theorem: " Acme " and "acme" trim and fold
to the same key, so they filter a concrete row set identically. -/
theorem filterRpc_trim_insensitive_witness :
    (∀ branch,
      filterRpc [⟨some "A", some "acme", some "B1", some "1 day 03:22:00"⟩]
          (some " Acme ") branch
        = filterRpc [⟨some "A", some "acme", some "B1", some "1 day 03:22:00"⟩]
          (some "acme") branch) ∧
    (⟨some "A", some "acme", some "B1", some "1 day 03:22:00"⟩ ∈
        filterRpc [⟨some "A", some "acme", some "B1", some "1 day 03:22:00"⟩]
          none (some "B1") ↔
      (⟨some "A", some "acme", some "B1", some "1 day 03:22:00"⟩ : RpcRow) ∈
          [(⟨some "A", some "acme", some "B1", some "1 day 03:22:00"⟩ : RpcRow)] ∧
        ∃ rb, (some "B1" : Option String) = some rb ∧ rb ≠ "" ∧ rb = "B1") :=
  filterRpc_trim_insensitive
    [⟨some "A", some "acme", some "B1", some "1 day 03:22:00"⟩]
    " Acme " "acme" (by decide) "B1"
    ⟨some "A", some "acme", some "B1", some "1 day 03:22:00"⟩

end BankBot
